import Mathlib

/-!
Verification development for the dashboard's natural-language command
interpreter (Alias Resolver, Intent Classifier, Action Builder, Interpreter
Facade, Remote Delegate, Action Consumer).  The interpreter works on
lower-cased, trimmed query strings and uses JavaScript regular-expression
tests; each test is embedded here as an executable predicate on the
character list of the query, with JavaScript word-boundary and
whitespace-class semantics made explicit.
-/

-- ── Character classes (JavaScript regex semantics) ──────────────────────────

/-- JavaScript word character for the regex metachar backslash-w:
`[A-Za-z0-9_]`. -/
def isWordChar (c : Char) : Bool :=
  c.isAlpha || c.isDigit || c == '_'

/-- JavaScript whitespace class (regex backslash-s and `String.prototype.trim`):
space, tab, line terminators, vertical tab, form feed, NBSP, and the Unicode
space separators. -/
def isJsSpace (c : Char) : Bool :=
  let n := c.toNat
  n == 0x20 || n == 0x09 || n == 0x0a || n == 0x0b || n == 0x0c || n == 0x0d ||
  n == 0xa0 || n == 0x1680 || (0x2000 ≤ n && n ≤ 0x200a) ||
  n == 0x2028 || n == 0x2029 || n == 0x202f || n == 0x205f ||
  n == 0x3000 || n == 0xfeff

/-- JavaScript line terminator (the regex `.` without the `s` flag matches any
character except these). -/
def isLineTerm (c : Char) : Bool :=
  let n := c.toNat
  n == 0x0a || n == 0x0d || n == 0x2028 || n == 0x2029

-- ── List-of-characters string primitives ────────────────────────────────────

/-- `startsWithL l pat` : does `l` start with the pattern `pat`? -/
def startsWithL : List Char → List Char → Bool
  | _, [] => true
  | [], _ :: _ => false
  | a :: as, b :: bs => a == b && startsWithL as bs

/-- `containsSub l pat` : does `l` contain `pat` as a contiguous substring?
Embeds JavaScript `String.prototype.includes` / a bare regex literal test. -/
def containsSub : List Char → List Char → Bool
  | [], pat => pat.isEmpty
  | c :: rest, pat => startsWithL (c :: rest) pat || containsSub rest pat

/-- Substring containment on strings (JavaScript `q.includes(sub)` and
`/sub/.test(q)` for a plain literal pattern). -/
def strContains (q sub : String) : Bool :=
  containsSub q.data sub.data

/-- `wordPrev prev` : is the character before the current scan position a word
character?  `none` stands for start of string (a word boundary). -/
def wordPrev : Option Char → Bool
  | none => false
  | some c => isWordChar c

/-- Is the first character of the remainder a word character?  Used for the
trailing word-boundary test: the boundary holds exactly when this is false
(given that the matched token ends in a word character). -/
def wordAt : List Char → Bool
  | [] => false
  | c :: _ => isWordChar c

/-- Is the first character of the remainder JavaScript whitespace? -/
def headSpace : List Char → Bool
  | [] => false
  | c :: _ => isJsSpace c

/-- Is the first character of the remainder equal to `c`? -/
def headIs (c : Char) : List Char → Bool
  | [] => false
  | d :: _ => d == c

/-- Generic position scanner: `scanPos m prev l` tests whether the matcher `m`
succeeds at some position of `l`, where `m` receives the previous character
(for word-boundary tests) and the remainder of the list.  This is the
left-to-right position scan a JavaScript regex engine performs. -/
def scanPos (m : Option Char → List Char → Bool) : Option Char → List Char → Bool
  | prev, [] => m prev []
  | prev, c :: rest => m prev (c :: rest) || scanPos m (some c) rest

/-- One whole-word token: embeds `\btok\b` for a token that starts and ends
with word characters (all tokens used by the interpreter do). -/
def wordTokOne (q : String) (tok : String) : Bool :=
  scanPos
    (fun prev l =>
      !wordPrev prev && startsWithL l tok.data && !wordAt (l.drop tok.data.length))
    none q.data

/-- Alternation of whole-word tokens: embeds `\b(t1|t2|…)\b` as a pure
existence test (the order of alternatives does not matter for `.test`). -/
def wordTokAny (q : String) (toks : List String) : Bool :=
  toks.any (wordTokOne q)

/-- `dotStarThen pats l` : embeds `.*(p1|p2|…)` applied to `l` — some pattern
matches at the current or a later position, with only non-line-terminator
characters skipped (JavaScript `.` does not match line terminators). -/
def dotStarThen (pats : List (List Char)) : List Char → Bool
  | [] => pats.any (fun p => startsWithL [] p)
  | c :: rest =>
    pats.any (fun p => startsWithL (c :: rest) p) ||
    (!isLineTerm c && dotStarThen pats rest)

/-- `numThen digits nxt l` : `l` starts with the digit literal `digits`,
followed by `\s*`, and the continuation predicate `nxt` accepts what follows
the whitespace run.  (`\s*` before a non-whitespace literal is deterministic:
the maximal whitespace run is consumed.) -/
def numThen (digits : List Char) (nxt : List Char → Bool) (l : List Char) : Bool :=
  startsWithL l digits && nxt ((l.drop digits.length).dropWhile isJsSpace)

-- ── JavaScript string normalisation used by the Facade ──────────────────────

/-- Embeds `String.prototype.toLowerCase` (ASCII range; the interpreter's
vocabulary is ASCII). -/
def jsToLowerCase (s : String) : String :=
  String.mk (s.data.map Char.toLower)

/-- Embeds `String.prototype.trim`: strip JavaScript whitespace from both
ends. -/
def jsTrim (s : String) : String :=
  String.mk (((s.data.dropWhile isJsSpace).reverse.dropWhile isJsSpace).reverse)

/-- `raw.toLowerCase().trim()` — the Facade's query normalisation. -/
def normalizeQ (raw : String) : String :=
  jsTrim (jsToLowerCase raw)

/-- Embeds `String.prototype.startsWith`. -/
def jsStartsWith (s pre : String) : Bool :=
  startsWithL s.data pre.data

-- ── Data model: action vocabulary ───────────────────────────────────────────

inductive Mode where
  | realtime
  | history
deriving DecidableEq, Repr

inductive LiveKey where
  | h1
  | h12
  | h24
deriving DecidableEq, Repr

inductive HistKey where
  | yesterday
  | w1
  | m1
deriving DecidableEq, Repr

inductive ChartType where
  | line
  | spline
  | area
  | column
deriving DecidableEq, Repr

/-- The literal wire string of a live-window key (`"1h" | "12h" | "24h"`). -/
def LiveKey.str : LiveKey → String
  | .h1 => "1h"
  | .h12 => "12h"
  | .h24 => "24h"

/-- The 8-kind tagged action vocabulary (`DashboardAction` in the source; in
TypeScript a single record with a `type` discriminator and optional fields,
here the corresponding tagged variant). -/
inductive DashboardAction where
  | showOnlyParams (params : List String)
  | showAllParams
  | hideParam (param : String)
  | showParam (param : String)
  | setMode (mode : Mode)
  | setLiveKey (liveKey : LiveKey)
  | setHistKey (histKey : HistKey)
  | setChartType (chartType : ChartType)
deriving DecidableEq, Repr

/-- Interpretation Result: `{ reply, actions }`. -/
structure InterpretResult where
  reply : String
  actions : List DashboardAction
deriving DecidableEq, Repr

-- ── Alias Resolver ──────────────────────────────────────────────────────────

/-- `PARAM_ALIASES`, in source (object-literal insertion) order:
lower-cased phrase ↦ canonical parameter identifier. -/
def PARAM_ALIASES : List (String × String) :=
  [("tubing", "tubing"), ("tubing pressure", "tubing"), ("tub", "tubing"),
   ("tbg", "tubing"),
   ("a_ann", "a_ann"), ("a-ann", "a_ann"), ("a ann", "a_ann"),
   ("a-annulus", "a_ann"), ("a annulus", "a_ann"), ("aann", "a_ann"),
   ("b_ann", "b_ann"), ("b-ann", "b_ann"), ("b ann", "b_ann"),
   ("b-annulus", "b_ann"), ("b annulus", "b_ann"), ("bann", "b_ann"),
   ("flowline_p", "flowline_p"), ("flowline pressure", "flowline_p"),
   ("fl pressure", "flowline_p"), ("fl press", "flowline_p"),
   ("flowline p", "flowline_p"), ("flp", "flowline_p"),
   ("fl-line pressure", "flowline_p"),
   ("flowline_t", "flowline_t"), ("flowline temperature", "flowline_t"),
   ("fl temperature", "flowline_t"), ("fl temp", "flowline_t"),
   ("flowline t", "flowline_t"), ("flt", "flowline_t"),
   ("fl-line temperature", "flowline_t"), ("temperature", "flowline_t"),
   ("temp", "flowline_t")]

def PRESSURE_PARAMS : List String := ["tubing", "a_ann", "b_ann", "flowline_p"]

def PARAM_LABELS : List (String × String) :=
  [("tubing", "Tubing Pressure"), ("a_ann", "A-Ann Pressure"),
   ("b_ann", "B-Ann Pressure"), ("flowline_p", "Flowline Pressure"),
   ("flowline_t", "Flowline Temperature")]

/-- `PARAM_ALIASES[alias]` (total on keys of the table). -/
def lookupAlias (a : String) : String :=
  match PARAM_ALIASES.find? (fun p => p.1 == a) with
  | some p => p.2
  | none => ""

/-- `PARAM_LABELS[pid] ?? pid`. -/
def labelOf (pid : String) : String :=
  match PARAM_LABELS.find? (fun p => p.1 == pid) with
  | some p => p.2
  | none => pid

/-- Stable insertion of `x` before the first element of no greater length:
together with `sortByLenDesc` this embeds the JavaScript stable
`Array.prototype.sort((a, b) => b.length - a.length)`. -/
def insertByLen (x : String) : List String → List String
  | [] => [x]
  | y :: ys => if y.length ≤ x.length then x :: y :: ys else y :: insertByLen x ys

/-- Stable sort by string length, longest first. -/
def sortByLenDesc : List String → List String
  | [] => []
  | x :: xs => insertByLen x (sortByLenDesc xs)

/-- The Alias Resolver (`resolveParams` in the source): scan the alias table
longest phrase first; on a substring hit append the canonical identifier if
not already present. -/
def resolveParams (q : String) : List String :=
  (sortByLenDesc (PARAM_ALIASES.map Prod.fst)).foldl
    (fun found al =>
      if strContains q al && !(found.contains (lookupAlias al)) then
        found ++ [lookupAlias al]
      else found)
    []

-- ── Intent Classifier: the individual regex tests ───────────────────────────

/-- Leftmost regex match for an alternation of whole-word tokens, returning
the token (capture group 1): at each position the alternatives are tried in
order, exactly as the backtracking engine does. -/
def findTokFrom (toks : List String) : Option Char → List Char → Option String
  | _, [] => none
  | prev, c :: rest =>
    match
      (if wordPrev prev then none
       else toks.find? (fun t =>
         startsWithL (c :: rest) t.data && !wordAt ((c :: rest).drop t.data.length)))
    with
    | some t => some t
    | none => findTokFrom toks (some c) rest

/-- `q.match(/\b(spline|area|column|bar|line)\b/)`, reduced to its capture. -/
def findChartTok (q : String) : Option String :=
  findTokFrom ["spline", "area", "column", "bar", "line"] none q.data

/-- `/switch|change|use|set|convert|make/.test(q)`. -/
def verbTest (q : String) : Bool :=
  ["switch", "change", "use", "set", "convert", "make"].any (fun t => strContains q t)

/-- `/chart|graph|plot|type|view/.test(q)`. -/
def nounTest (q : String) : Bool :=
  ["chart", "graph", "plot", "type", "view"].any (fun t => strContains q t)

/-- The chart-type intent commits only with an action verb or a chart noun. -/
def chartCond (q : String) : Bool :=
  verbTest q || nounTest q

/-- `real.?time` at a position: "real", an optional non-line-terminator
character, then "time", with the trailing word boundary. -/
def realDotTime (q : String) : Bool :=
  scanPos
    (fun prev l =>
      !wordPrev prev && startsWithL l ("real".data) &&
      (let r := l.drop 4
       (startsWithL r ("time".data) && !wordAt (r.drop 4)) ||
       (match r with
        | c :: r2 => !isLineTerm c && startsWithL r2 ("time".data) && !wordAt (r2.drop 4)
        | [] => false)))
    none q.data

/-- `/\b(live|real.?time|realtime|real time|now)\b/.test(q)`. -/
def liveTest (q : String) : Bool :=
  wordTokOne q "live" || realDotTime q || wordTokOne q "realtime" ||
  wordTokOne q "real time" || wordTokOne q "now"

/-- Live intent gate: live vocabulary present and the word "history" absent. -/
def liveIntent (q : String) : Bool :=
  liveTest q && !(strContains q "history")

/-- Trailing `(our)?\b` after the matched "h": either "our" with a boundary
after it, or a boundary right here (the second disjunct is automatically
false when "our" follows, since 'o' is a word character). -/
def hourOptB (r : List Char) : Bool :=
  (startsWithL r ("our".data) && !wordAt (r.drop 3)) || !wordAt r

/-- Trailing `(our)?s?\b` after the matched "h": the four backtracking
combinations. -/
def hourOptSB (r : List Char) : Bool :=
  (startsWithL r ("ours".data) && !wordAt (r.drop 4)) ||
  (startsWithL r ("our".data) && !wordAt (r.drop 3)) ||
  (startsWithL r ("s".data) && !wordAt (r.drop 1)) ||
  !wordAt r

/-- One alternative of the live-window pattern: digits, `\s*`, "h",
`(our)?`, trailing boundary. -/
def liveWinAt (digits : List Char) (l : List Char) : Bool :=
  numThen digits (fun r => headIs 'h' r && hourOptB (r.drop 1)) l

/-- `/\b(1\s*h(our)?|12\s*h(our)?|24\s*h(our)?)\b/.test(q)`. -/
def liveWinTest (q : String) : Bool :=
  scanPos
    (fun prev l =>
      !wordPrev prev &&
      (liveWinAt ("1".data) l || liveWinAt ("12".data) l || liveWinAt ("24".data) l))
    none q.data

/-- `/last\s+(1|12|24)/.test(q)` — no word boundaries; matching "1" already
suffices for the alternation, "24" is the only other first character. -/
def lastNumTest (q : String) : Bool :=
  scanPos
    (fun _ l =>
      startsWithL l ("last".data) &&
      (let r := l.drop 4
       headSpace r &&
       (let r2 := r.dropWhile isJsSpace
        headIs '1' r2 || startsWithL r2 ("24".data))))
    none q.data

/-- Scanner for `q.match(/\b(1|12|24)\s*h/)`: leftmost position,
alternatives tried in order "1", "12", "24". -/
def findNumHFrom : Option Char → List Char → Option String
  | _, [] => none
  | prev, c :: rest =>
    match
      (if wordPrev prev then none
       else ["1", "12", "24"].find? (fun t =>
         numThen t.data (headIs 'h') (c :: rest)))
    with
    | some t => some t
    | none => findNumHFrom (some c) rest

/-- `q.match(/\b(1|12|24)\s*h/)`, reduced to capture group 1. -/
def findNumH (q : String) : Option String :=
  findNumHFrom none q.data

/-- `keyMap[digits] ?? "1h"` composed with `numMatch ? … : "1h"`. -/
def keyMapLk : Option String → LiveKey
  | some "1" => .h1
  | some "12" => .h12
  | some "24" => .h24
  | _ => .h1

/-- The `last\s+\d\b` alternative of the history pattern, with its leading
word boundary. -/
def lastDigitTok (q : String) : Bool :=
  scanPos
    (fun prev l =>
      !wordPrev prev && startsWithL l ("last".data) &&
      (let r := l.drop 4
       headSpace r &&
       (match r.dropWhile isJsSpace with
        | d :: rest => d.isDigit && !wordAt rest
        | [] => false)))
    none q.data

/-- `/\b(histor|yesterday|week|month|past|last\s+\d)\b/.test(q)`.  Note the
trailing boundary applies to every alternative — in particular "histor" can
only match the standalone word "histor", never "history". -/
def histTest (q : String) : Bool :=
  wordTokAny q ["histor", "yesterday", "week", "month", "past"] || lastDigitTok q

/-- `/1\s*month|30\s*day|monthly/.test(q)`. -/
def monthTest (q : String) : Bool :=
  scanPos (fun _ l => numThen ("1".data) (fun r => startsWithL r ("month".data)) l) none q.data ||
  scanPos (fun _ l => numThen ("30".data) (fun r => startsWithL r ("day".data)) l) none q.data ||
  strContains q "monthly"

/-- `/1\s*week|7\s*day|weekly/.test(q)`. -/
def weekTest (q : String) : Bool :=
  scanPos (fun _ l => numThen ("1".data) (fun r => startsWithL r ("week".data)) l) none q.data ||
  scanPos (fun _ l => numThen ("7".data) (fun r => startsWithL r ("day".data)) l) none q.data ||
  strContains q "weekly"

/-- `/\b24\s*h(our)?s?\b/.test(q)`. -/
def h24Test (q : String) : Bool :=
  scanPos
    (fun prev l =>
      !wordPrev prev &&
      numThen ("24".data) (fun r => headIs 'h' r && hourOptSB (r.drop 1)) l)
    none q.data

/-- `/\b12\s*h(our)?s?\b/.test(q)`. -/
def h12Test (q : String) : Bool :=
  scanPos
    (fun prev l =>
      !wordPrev prev &&
      numThen ("12".data) (fun r => headIs 'h' r && hourOptSB (r.drop 1)) l)
    none q.data

/-- `/\b1\s*h(our)?\b/.test(q)` — no optional plural "s" in this one. -/
def h1Test (q : String) : Bool :=
  scanPos
    (fun prev l =>
      !wordPrev prev &&
      numThen ("1".data) (fun r => headIs 'h' r && hourOptB (r.drop 1)) l)
    none q.data

/-- The `every(thing)?` alternative with its trailing boundary. -/
def everyTok (q : String) : Bool :=
  scanPos
    (fun prev l =>
      !wordPrev prev && startsWithL l ("every".data) &&
      (let r := l.drop 5
       (startsWithL r ("thing".data) && !wordAt (r.drop 5)) || !wordAt r))
    none q.data

/-- `/\b(all|every(thing)?|show all|reset)\b/.test(q)`. -/
def showAllTest (q : String) : Bool :=
  wordTokOne q "all" || everyTok q || wordTokOne q "show all" || wordTokOne q "reset"

/-- `/hide|remove/.test(q)`. -/
def hideRemoveTest (q : String) : Bool :=
  strContains q "hide" || strContains q "remove"

/-- Show-all intent gate. -/
def showAllCond (q : String) : Bool :=
  showAllTest q && !(hideRemoveTest q)

/-- `/pressure.*(only|sensor|param)|only.*(pressure|press)|pressure\s+sensor/.test(q)`. -/
def pressureTest (q : String) : Bool :=
  scanPos
    (fun _ l =>
      startsWithL l ("pressure".data) &&
      dotStarThen [("only".data), ("sensor".data), ("param".data)] (l.drop 8))
    none q.data ||
  scanPos
    (fun _ l =>
      startsWithL l ("only".data) &&
      dotStarThen [("pressure".data), ("press".data)] (l.drop 4))
    none q.data ||
  scanPos
    (fun _ l =>
      startsWithL l ("pressure".data) &&
      (let r := l.drop 8
       headSpace r && startsWithL (r.dropWhile isJsSpace) ("sensor".data)))
    none q.data

/-- Show-only-pressure-group intent gate (regex, or the bare queries
"pressure" / "pressures"). -/
def pressureCond (q : String) : Bool :=
  pressureTest q || q == "pressure" || q == "pressures"

/-- `/\b(hide|remove|turn off|disable|off)\b/.test(q)`. -/
def isHide (q : String) : Bool :=
  wordTokAny q ["hide", "remove", "turn off", "disable", "off"]

/-- `/\b(show|display|enable|turn on|on)\b/.test(q)`. -/
def isShow (q : String) : Bool :=
  wordTokAny q ["show", "display", "enable", "turn on", "on"]

/-- `/only/.test(q)`. -/
def onlyTest (q : String) : Bool :=
  strContains q "only"

-- ── Action Builder helpers ──────────────────────────────────────────────────

/-- `chartTypeMatch[1] === "bar" ? "column" : chartTypeMatch[1]` — the token
string used in the reply text. -/
def ctStr (tok : String) : String :=
  if tok == "bar" then "column" else tok

/-- The same token as a `ChartType` value (the TypeScript source casts the
token; `findChartTok` only returns the five listed tokens). -/
def ctOf (tok : String) : ChartType :=
  match tok with
  | "spline" => .spline
  | "area" => .area
  | "column" => .column
  | "bar" => .column
  | "line" => .line
  | _ => .line

/-- JavaScript `Array.prototype.join(", ")`. -/
def joinComma : List String → String
  | [] => ""
  | [x] => x
  | x :: y :: xs => x ++ ", " ++ joinComma (y :: xs)

/-- The fixed guidance reply of the terminal "unclear" intent. -/
def fallbackReply : String :=
  "I didn\x27t quite understand that. Try asking things like \"Show only pressure sensors\", \"Switch to 1-week history\", or \"Use spline chart\"."

-- ── Interpreter Facade (the classifier cascade of `interpretQuery`) ─────────

/-- Step 8 (fallback chart type) and step 9 (terminal unclear). -/
def interpretChart2 (q : String) (chartTypeMatch : Option String) : InterpretResult :=
  match chartTypeMatch with
  | some tok =>
    ⟨"Switched to " ++ ctStr tok ++ " chart.", [.setChartType (ctOf tok)]⟩
  | none => ⟨fallbackReply, []⟩

/-- Step 7 (per-parameter hide / show / show-only), falling through to the
chart-type second pass when the hide/show block does not return. -/
def interpretParams (q : String) (chartTypeMatch : Option String) : InterpretResult :=
  if (resolveParams q).length > 0 then
    if isHide q && !(isShow q) then
      ⟨"Hidden: " ++ joinComma ((resolveParams q).map labelOf) ++ ".",
       (resolveParams q).map DashboardAction.hideParam⟩
    else if isShow q || !(isHide q) then
      if onlyTest q then
        ⟨"Showing only: " ++ joinComma ((resolveParams q).map labelOf) ++ ".",
         [DashboardAction.showOnlyParams (resolveParams q)]⟩
      else
        ⟨"Showing: " ++ joinComma ((resolveParams q).map labelOf) ++ ".",
         (resolveParams q).map DashboardAction.showParam⟩
    else interpretChart2 q chartTypeMatch
  else interpretChart2 q chartTypeMatch

/-- Steps 2–7 of the classifier (everything after the first chart-type pass). -/
def interpretAfterChart (q : String) (chartTypeMatch : Option String) : InterpretResult :=
  if liveIntent q then
    if liveWinTest q || lastNumTest q then
      ⟨"Switched to live mode — last " ++ (keyMapLk (findNumH q)).str ++ ".",
       [.setLiveKey (keyMapLk (findNumH q))]⟩
    else ⟨"Switched to live (real-time) mode.", [.setMode .realtime]⟩
  else if histTest q then
    if strContains q "yesterday" then
      ⟨"Showing yesterday\x27s data.", [.setHistKey .yesterday]⟩
    else if monthTest q then
      ⟨"Showing last 1-month history.", [.setHistKey .m1]⟩
    else if weekTest q then
      ⟨"Showing last 1-week history.", [.setHistKey .w1]⟩
    else ⟨"Switched to history mode.", [.setMode .history]⟩
  else if h24Test q then
    ⟨"Showing last 24 hours of live data.", [.setLiveKey .h24]⟩
  else if h12Test q then
    ⟨"Showing last 12 hours of live data.", [.setLiveKey .h12]⟩
  else if h1Test q then
    ⟨"Showing last 1 hour of live data.", [.setLiveKey .h1]⟩
  else if showAllCond q then
    ⟨"All parameters are now visible.", [.showAllParams]⟩
  else if pressureCond q then
    ⟨"Showing only the 4 pressure parameters.", [.showOnlyParams PRESSURE_PARAMS]⟩
  else interpretParams q chartTypeMatch

/-- The full classifier on the normalised query. -/
def interpretCore (q : String) : InterpretResult :=
  match findChartTok q with
  | some tok =>
    if chartCond q then
      ⟨"Switched to " ++ ctStr tok ++ " chart type.", [.setChartType (ctOf tok)]⟩
    else interpretAfterChart q (some tok)
  | none => interpretAfterChart q none

/-- The Interpreter Facade (`interpretQuery`): lower-case, trim, classify. -/
def interpretQuery (raw : String) : InterpretResult :=
  interpretCore (normalizeQ raw)

-- ── Remote Delegate (`callOpenAI`) ──────────────────────────────────────────

/-- Possible outcomes of the single remote call, as the Delegate's fetch
handler distinguishes them. -/
inductive RemoteOutcome where
  | ok (r : InterpretResult)
  | quotaError
  | otherHttpError (msg : String)
  | networkOrParseFailure
deriving Repr

/-- The Delegate is NotConfigured when no credential is present, or the
trimmed credential is empty, or it begins with the placeholder "sk-...". -/
def notConfigured (envKey : Option String) : Bool :=
  match envKey.map jsTrim with
  | none => true
  | some k => k == "" || jsStartsWith k "sk-..."

/-- The Remote Delegate: with no usable key, forward to the local Facade;
otherwise issue the remote call and fall back to the Facade on a quota error,
any other HTTP error (thrown then caught), or a network/parse failure. -/
def callOpenAI (envKey : Option String) (remote : String → RemoteOutcome)
    (userMessage : String) : InterpretResult :=
  if notConfigured envKey then interpretQuery userMessage
  else
    match remote userMessage with
    | .ok r => r
    | .quotaError => interpretQuery userMessage
    | .otherHttpError _ => interpretQuery userMessage
    | .networkOrParseFailure => interpretQuery userMessage

-- ── Action Consumer (`onActions` in the dashboard component) ────────────────

/-- The catalogue entries (`PARAMS` in the source; the purely visual fields —
colour, axis index, plot range — are render configuration and are omitted). -/
structure ParamConfig where
  id : String
  name : String
  label : String
  unit : String
deriving DecidableEq, Repr

def PARAMS : List ParamConfig :=
  [⟨"tubing", "Tub Pressure", "TBG Press", "PSI"⟩,
   ⟨"a_ann", "A-Ann Pressure", "A-Ann Press", "PSI"⟩,
   ⟨"b_ann", "B-Ann Pressure", "B-Ann Press", "PSI"⟩,
   ⟨"flowline_p", "Fl-line Pressure", "FL Press", "PSI"⟩,
   ⟨"flowline_t", "Fl-line Temperature", "FL Temp", "°F"⟩]

/-- Dashboard view-state touched by the Action Consumer.  `disabledParams`
models the JavaScript `Set` as an insertion-ordered duplicate-free list. -/
structure ViewState where
  mode : Mode
  liveKey : LiveKey
  histKey : HistKey
  chartType : ChartType
  disabledParams : List String
deriving DecidableEq, Repr

/-- `new Set([...prev, x])` — add to the back unless already present. -/
def setInsert (s : List String) (x : String) : List String :=
  if s.contains x then s else s ++ [x]

/-- `Set.delete`. -/
def setDelete (s : List String) (x : String) : List String :=
  s.filter (fun y => y ≠ x)

/-- One arm of the Consumer's `switch` over the action kind. -/
def applyAction (st : ViewState) (a : DashboardAction) : ViewState :=
  match a with
  | .showOnlyParams ps =>
    { st with disabledParams := (PARAMS.map (fun p => p.id)).filter (fun i => !ps.contains i) }
  | .showAllParams => { st with disabledParams := [] }
  | .hideParam p => { st with disabledParams := setInsert st.disabledParams p }
  | .showParam p => { st with disabledParams := setDelete st.disabledParams p }
  | .setMode m => { st with mode := m }
  | .setLiveKey k => { st with mode := Mode.realtime, liveKey := k }
  | .setHistKey k => { st with mode := Mode.history, histKey := k }
  | .setChartType c => { st with chartType := c }

/-- The Consumer applies the ordered action list in sequence. -/
def onActions (st : ViewState) (acts : List DashboardAction) : ViewState :=
  acts.foldl applyAction st

-- ── Helper lemmas ───────────────────────────────────────────────────────────

/-- A string append with a non-empty left part is non-empty. -/
theorem append_ne_empty (a b : String) (h : a ≠ "") : a ++ b ≠ "" := by
  intro hab
  apply h
  have hd : a.data ++ b.data = [] := by
    rw [← String.data_append, hab]
  have ha : a.data = [] := (List.append_eq_nil.mp hd).1
  cases a with
  | mk la => cases ha; rfl

/-- Neither hide/show branch fires on `interpretChart2`, which always yields a
non-empty reply. -/
theorem interpretChart2_reply_ne (q : String) (cm : Option String) :
    (interpretChart2 q cm).reply ≠ "" := by
  unfold interpretChart2
  split
  · apply append_ne_empty
    apply append_ne_empty
    decide
  · decide

theorem interpretParams_reply_ne (q : String) (cm : Option String) :
    (interpretParams q cm).reply ≠ "" := by
  unfold interpretParams
  split
  · split
    · apply append_ne_empty; apply append_ne_empty; decide
    · split
      · split
        · apply append_ne_empty; apply append_ne_empty; decide
        · apply append_ne_empty; apply append_ne_empty; decide
      · exact interpretChart2_reply_ne q cm
  · exact interpretChart2_reply_ne q cm

theorem interpretAfterChart_reply_ne (q : String) (cm : Option String) :
    (interpretAfterChart q cm).reply ≠ "" := by
  unfold interpretAfterChart
  split
  · split
    · apply append_ne_empty; apply append_ne_empty; decide
    · decide
  · split
    · split
      · decide
      · split
        · decide
        · split
          · decide
          · decide
    · split
      · decide
      · split
        · decide
        · split
          · decide
          · split
            · decide
            · split
              · decide
              · exact interpretParams_reply_ne q cm

-- ── Claim theorems ──────────────────────────────────────────────────────────

/-- Claim C1 (code bug, evaluation at the failing input): the query
"switch to history mode" does not produce a bare history-mode switch — the
history pattern requires a word boundary right after the alternative
"histor", which the word "history" fails — so the interpreter falls through
every classifier step to the terminal unclear result with an empty action
list. -/
theorem c1_switch_to_history_mode_is_unclear :
    interpretQuery "switch to history mode" = ⟨fallbackReply, []⟩ ∧
    histTest (normalizeQ "switch to history mode") = false := by
  constructor
  · decide
  · decide

/-- Claim C2 (counterexample): resolving
"flowline pressure and flowline temperature" does NOT yield
`[flowline_p, flowline_t]` in that order. -/
theorem c2_counterexample :
    ¬ (resolveParams "flowline pressure and flowline temperature" =
        ["flowline_p", "flowline_t"]) := by
  decide

/-- Claim C2 (amended): resolving "flowline pressure and flowline
temperature" yields exactly the two identifiers with `flowline_t` first —
the length-sorted alias scan discovers the 20-character alias
"flowline temperature" before the 17-character "flowline pressure" — and no
duplicates. -/
theorem c2_amended_resolver_order :
    resolveParams "flowline pressure and flowline temperature" =
      ["flowline_t", "flowline_p"] := by
  decide

/-- Claim C3: any input whose lower-cased, trimmed form is "pressure" yields
exactly one `showOnlyParams` action over the 4-member pressure group, which
excludes the temperature identifier. -/
theorem c3_pressure_show_only (raw : String)
    (h : normalizeQ raw = "pressure") :
    interpretQuery raw =
      ⟨"Showing only the 4 pressure parameters.",
       [DashboardAction.showOnlyParams PRESSURE_PARAMS]⟩ ∧
    PRESSURE_PARAMS = ["tubing", "a_ann", "b_ann", "flowline_p"] ∧
    "flowline_t" ∉ PRESSURE_PARAMS := by
  refine ⟨?_, by decide, by decide⟩
  unfold interpretQuery
  rw [h]
  decide

theorem c3_pressure_show_only_witness :
    normalizeQ "  PRESSURE  " = "pressure" ∧
    (interpretQuery "  PRESSURE  " =
      ⟨"Showing only the 4 pressure parameters.",
       [DashboardAction.showOnlyParams PRESSURE_PARAMS]⟩ ∧
     PRESSURE_PARAMS = ["tubing", "a_ann", "b_ann", "flowline_p"] ∧
     "flowline_t" ∉ PRESSURE_PARAMS) :=
  ⟨by decide, c3_pressure_show_only "  PRESSURE  " (by decide)⟩

/-- Claim C4: "hide b-annulus and tubing" yields exactly `hideParam b_ann`
then `hideParam tubing` (resolver order) and a reply naming both display
labels joined by a comma. -/
theorem c4_multi_hide_expansion :
    interpretQuery "hide b-annulus and tubing" =
      ⟨"Hidden: " ++ ("B-Ann Pressure" ++ ", " ++ "Tubing Pressure") ++ ".",
       [DashboardAction.hideParam "b_ann", DashboardAction.hideParam "tubing"]⟩ := by
  decide

/-- Claim C5: any input containing none of the recognized vocabulary — no
chart-type, live, history, time-window, show-all, pressure-group, polarity,
or alias token — produces the empty action list together with the one fixed
guidance reply. -/
theorem c5_unclear_terminal (raw : String)
    (hc : findChartTok (normalizeQ raw) = none)
    (hl : liveTest (normalizeQ raw) = false)
    (hh : histTest (normalizeQ raw) = false)
    (ha : h24Test (normalizeQ raw) = false)
    (hb : h12Test (normalizeQ raw) = false)
    (hd : h1Test (normalizeQ raw) = false)
    (hsa : showAllTest (normalizeQ raw) = false)
    (hp : pressureTest (normalizeQ raw) = false)
    (hq1 : normalizeQ raw ≠ "pressure")
    (hq2 : normalizeQ raw ≠ "pressures")
    (hih : isHide (normalizeQ raw) = false)
    (his : isShow (normalizeQ raw) = false)
    (hr : resolveParams (normalizeQ raw) = []) :
    interpretQuery raw = ⟨fallbackReply, []⟩ := by
  have hq1b : (normalizeQ raw == "pressure") = false := by
    simp [hq1]
  have hq2b : (normalizeQ raw == "pressures") = false := by
    simp [hq2]
  simp only [interpretQuery, interpretCore, hc]
  simp [interpretAfterChart, liveIntent, hl, hh, ha, hb, hd, showAllCond, hsa,
    pressureCond, hp, hq1b, hq2b, interpretParams, hr, interpretChart2]

theorem c5_unclear_terminal_witness :
    resolveParams (normalizeQ "xyzzy") = [] ∧
    interpretQuery "xyzzy" = ⟨fallbackReply, []⟩ :=
  ⟨by decide,
   c5_unclear_terminal "xyzzy" (by decide) (by decide) (by decide) (by decide)
     (by decide) (by decide) (by decide) (by decide) (by decide) (by decide)
     (by decide) (by decide) (by decide)⟩

/-- Claim C6: the Interpreter Facade is deterministic — two calls on the same
input produce the same reply string and the same action list (same length,
same actions in the same order). -/
theorem c6_determinism (q1 q2 : String) (h : q1 = q2) :
    (interpretQuery q1).reply = (interpretQuery q2).reply ∧
    (interpretQuery q1).actions = (interpretQuery q2).actions ∧
    (interpretQuery q1).actions.length = (interpretQuery q2).actions.length := by
  subst h
  exact ⟨rfl, rfl, rfl⟩

theorem c6_determinism_witness :
    ("show tubing" : String) = "show tubing" ∧
    ((interpretQuery "show tubing").reply = (interpretQuery "show tubing").reply ∧
     (interpretQuery "show tubing").actions = (interpretQuery "show tubing").actions ∧
     (interpretQuery "show tubing").actions.length =
       (interpretQuery "show tubing").actions.length) :=
  ⟨rfl, c6_determinism "show tubing" "show tubing" rfl⟩

/-- Claim C7: with the Remote Delegate NotConfigured (no key, or a key
beginning with the placeholder prefix), its output on every input equals the
local Interpreter Facade on that input, and the remote collaborator is never
consulted (the result is the same for every remote oracle). -/
theorem c7_not_configured_fallback (envKey : Option String)
    (h : notConfigured envKey = true) (msg : String)
    (remote remote2 : String → RemoteOutcome) :
    callOpenAI envKey remote msg = interpretQuery msg ∧
    callOpenAI envKey remote msg = callOpenAI envKey remote2 msg := by
  constructor <;> simp [callOpenAI, h]

theorem c7_not_configured_fallback_witness :
    notConfigured (some "sk-...placeholder") = true ∧
    (callOpenAI (some "sk-...placeholder")
        (fun _ => RemoteOutcome.networkOrParseFailure) "hide tubing" =
       interpretQuery "hide tubing" ∧
     callOpenAI (some "sk-...placeholder")
        (fun _ => RemoteOutcome.networkOrParseFailure) "hide tubing" =
       callOpenAI (some "sk-...placeholder")
        (fun _ => RemoteOutcome.ok ⟨"remote answer", []⟩) "hide tubing") :=
  ⟨by decide,
   c7_not_configured_fallback (some "sk-...placeholder") (by decide) "hide tubing"
     (fun _ => RemoteOutcome.networkOrParseFailure)
     (fun _ => RemoteOutcome.ok ⟨"remote answer", []⟩)⟩

/-- Claim C8: the Interpreter Facade is total — every classifier branch,
the terminal unclear fallback included, yields an Interpretation Result —
and the reply string of the returned result is never empty. -/
theorem c8_total_reply_nonempty (raw : String) :
    (interpretQuery raw).reply ≠ "" := by
  unfold interpretQuery interpretCore
  split
  · split
    · apply append_ne_empty
      apply append_ne_empty
      decide
    · exact interpretAfterChart_reply_ne _ _
  · exact interpretAfterChart_reply_ne _ _

/-- Claim C9 (counterexample): applying `setLiveKey` is not an overwrite of
only the live-window field — from a history-mode state, the mode field
changes to realtime as well. -/
theorem c9_counterexample :
    applyAction ⟨Mode.history, LiveKey.h24, HistKey.yesterday, ChartType.line, []⟩
        (DashboardAction.setLiveKey LiveKey.h1) ≠
      ⟨Mode.history, LiveKey.h1, HistKey.yesterday, ChartType.line, []⟩ := by
  decide

/-- Claim C9 (amended): applying `setLiveKey` overwrites the liveKey field
and forces the mode field to realtime, leaving histKey, chartType and the
hidden-parameter set unchanged; symmetrically, `setHistKey` overwrites the
histKey field and forces the mode field to history. -/
theorem c9_amended_overwrite (s : ViewState) (k : LiveKey) (k2 : HistKey) :
    applyAction s (DashboardAction.setLiveKey k) =
      { s with mode := Mode.realtime, liveKey := k } ∧
    applyAction s (DashboardAction.setHistKey k2) =
      { s with mode := Mode.history, histKey := k2 } :=
  ⟨rfl, rfl⟩

/-- Step 7 helper: when no earlier intent fires, parameters resolve, and no
hide/show-polarity token and no "only" appear, the classifier emits one
`showParam` per resolved parameter in resolver order. -/
theorem afterChart_bare_show (q : String) (cm : Option String)
    (h1 : liveIntent q = false) (h2 : histTest q = false)
    (h3 : h24Test q = false) (h4 : h12Test q = false) (h5 : h1Test q = false)
    (h6 : showAllCond q = false) (h7 : pressureCond q = false)
    (h8 : resolveParams q ≠ []) (h9 : isHide q = false)
    (h10 : isShow q = false) (h11 : onlyTest q = false) :
    (interpretAfterChart q cm).actions =
      (resolveParams q).map DashboardAction.showParam := by
  simp [interpretAfterChart, h1, h2, h3, h4, h5, h6, h7, interpretParams,
    List.length_pos, h8, h9, h10, h11]

/-- Claim C10: a bare parameter mention defaults to "show" — for every query
that reaches the per-parameter step with at least one resolved parameter and
no hide token, no show token and no "only", the interpreter emits one
`showParam` action per resolved parameter, in resolver order. -/
theorem c10_bare_mention_defaults_to_show (raw : String)
    (h0 : findChartTok (normalizeQ raw) = none ∨ chartCond (normalizeQ raw) = false)
    (h1 : liveIntent (normalizeQ raw) = false)
    (h2 : histTest (normalizeQ raw) = false)
    (h3 : h24Test (normalizeQ raw) = false)
    (h4 : h12Test (normalizeQ raw) = false)
    (h5 : h1Test (normalizeQ raw) = false)
    (h6 : showAllCond (normalizeQ raw) = false)
    (h7 : pressureCond (normalizeQ raw) = false)
    (h8 : resolveParams (normalizeQ raw) ≠ [])
    (h9 : isHide (normalizeQ raw) = false)
    (h10 : isShow (normalizeQ raw) = false)
    (h11 : onlyTest (normalizeQ raw) = false) :
    (interpretQuery raw).actions =
      (resolveParams (normalizeQ raw)).map DashboardAction.showParam := by
  rcases h0 with h0 | h0
  · simp only [interpretQuery, interpretCore, h0]
    exact afterChart_bare_show _ _ h1 h2 h3 h4 h5 h6 h7 h8 h9 h10 h11
  · cases hcm : findChartTok (normalizeQ raw) with
    | none =>
      simp only [interpretQuery, interpretCore, hcm]
      exact afterChart_bare_show _ _ h1 h2 h3 h4 h5 h6 h7 h8 h9 h10 h11
    | some tok =>
      simp only [interpretQuery, interpretCore, hcm, h0, Bool.false_eq_true,
        if_false]
      exact afterChart_bare_show _ _ h1 h2 h3 h4 h5 h6 h7 h8 h9 h10 h11

theorem c10_bare_mention_defaults_to_show_witness :
    resolveParams (normalizeQ "tubing and temp") ≠ [] ∧
    (interpretQuery "tubing and temp").actions =
      (resolveParams (normalizeQ "tubing and temp")).map DashboardAction.showParam :=
  ⟨by decide,
   c10_bare_mention_defaults_to_show "tubing and temp" (Or.inl (by decide))
     (by decide) (by decide) (by decide) (by decide) (by decide) (by decide)
     (by decide) (by decide) (by decide) (by decide) (by decide)⟩
